import Mathlib

/-!
Shallow embedding of `app/pv_system_calculations.py` and of the payback stage
of `app/main.py` from the helios-connect-backend repository.

Modelling conventions:
* timestamps are minutes since 2023-01-01 00:00 UTC (`Nat`);
* float arithmetic is modelled over `ℚ`; Python `round(x, 2)` is modelled by
  `round2`, rounding to the nearest multiple of 1/100;
* a pandas `NaN` cell is `Option.none`; pandas column sums and row-wise minima
  skip missing cells (default `skipna=True`), as `optSum` and `min_prod_cons`
  do;
* operations that raise in Python are modelled with `Except.error`.
-/

namespace Helios

/-- A time series: (timestamp in minutes since 2023-01-01 00:00 UTC, value). -/
abbrev Series := List (Nat × ℚ)

/-- Index alignment on a pandas merge: the value stored at an exactly matching
timestamp of the other frame, `none` when the timestamp is absent. -/
def lookupTime (t : Nat) : Series → Option ℚ
  | [] => none
  | (s, v) :: rest => if s = t then some v else lookupTime t rest

/-- A Python object for the function-local `pv_system` class of
`create_pv_system` (pv_system_calculations.py lines 20-24): each attribute is
optional because the reference code only ever sets `size`. -/
structure PyObj where
  size : Option ℚ
  cost_per_kWp : Option ℚ
  annual_production : Option ℚ
  deriving DecidableEq

/-- The Python heap of class objects allocated by `create_pv_system`, in
allocation order. -/
abbrev Heap := List PyObj

/-- `create_pv_system` (pv_system_calculations.py lines 19-29): executing the
body runs a `class pv_system:` statement, which allocates a fresh class object
on every call, then sets the class attribute
`pv_system.size = annual_el_demand / 1000` and returns the class. -/
def create_pv_system (annual_el_demand : ℚ) (heap : Heap) : PyObj × Heap :=
  let pv_system : PyObj :=
    { size := some (annual_el_demand / 1000)
      cost_per_kWp := none
      annual_production := none }
  (pv_system, heap ++ [pv_system])

/-- One row of the reference load-profile CSV restricted to the two columns
selected by `usecols` (line 148): the parsed `Zeitstempel von` timestamp and
the parsed `H00 [kWh]` value; `none` models a missing (NaN) cell. -/
structure SLPRow where
  zeitstempel_von : Option Nat
  h00 : Option ℚ
  deriving DecidableEq

/-- The row predicate of `df.dropna()`: both cells present. -/
def keptRow (r : SLPRow) : Bool := r.zeitstempel_von.isSome && r.h00.isSome

/-- `df.dropna()` (line 154): keep exactly the rows with no missing cell. -/
def dropna (rows : List SLPRow) : List SLPRow := rows.filter keptRow

/-- `pd.date_range('2023-01-01 00:00', '2023-12-31 23:45', freq='15T',
tz='UTC')` (lines 157-159): the 35040 quarter-hour timestamps of 2023,
as minutes since 2023-01-01 00:00 UTC. -/
def dateIndex2023 : List Nat := (List.range 35040).map (fun i => 15 * i)

/-- `st_total_annual_consumption` (line 166): the sum of the `H00 [kWh]`
column after `dropna`; every kept row has a present value, so `getD 0` is only
a totalisation. -/
def st_total_annual_consumption (rows : List SLPRow) : ℚ :=
  ((dropna rows).map (fun r => r.h00.getD 0)).sum

/-- The sum of every present `H00 [kWh]` value of the file, rows that
`dropna` removes included. -/
def fullFileTotal (rows : List SLPRow) : ℚ :=
  (rows.filterMap (fun r => r.h00)).sum

/-- The sum of the present `H00 [kWh]` values of the rows that `dropna`
removes. -/
def droppedTotal (rows : List SLPRow) : ℚ :=
  ((rows.filter (fun r => ! keptRow r)).filterMap (fun r => r.h00)).sum

/-- `estimate_hourly_el_consumption` (lines 132-177). Assigning the fixed
35040-element 2023 index to a frame of a different length raises `ValueError`
in pandas (line 159), and the scalar float division on line 169 raises
`ZeroDivisionError` when the reference total is zero; both are modelled as
`Except.error`. -/
def estimate_hourly_el_consumption (annual_el_demand : ℚ) (fileRows : List SLPRow) :
    Except String Series :=
  let df := dropna fileRows
  if df.length = dateIndex2023.length then
    if st_total_annual_consumption fileRows = 0 then
      Except.error "ZeroDivisionError"
    else
      let scaling_factor := annual_el_demand / st_total_annual_consumption fileRows
      Except.ok (dateIndex2023.zip
        ((df.map (fun r => r.h00.getD 0)).map (fun v => v * scaling_factor)))
  else
    Except.error "ValueError"

/-- `pd.merge(el_demand_timeseries, el_production_timeseries, how='left',
left_index=True, right_index=True)` (line 200): every demand row is kept in
order, and the production column holds the production value at exactly the
same timestamp, `none` (NaN) when the hourly production index has no such
timestamp. -/
def mergeLeft (el_demand el_production : Series) : List (Nat × ℚ × Option ℚ) :=
  el_demand.map (fun td => (td.1, td.2, lookupTime td.1 el_production))

/-- `fillna(method='ffill')` (line 203) on the production column: a missing
value is replaced by the last preceding present value (`last`), and stays
missing when no value has occurred yet. The demand column has no missing
values, so only the production column is affected. -/
def ffillFrom (last : Option ℚ) : List (Nat × ℚ × Option ℚ) → List (Nat × ℚ × Option ℚ)
  | [] => []
  | r :: rest =>
    match r.2.2 with
    | some p => (r.1, r.2.1, some p) :: ffillFrom (some p) rest
    | none => (r.1, r.2.1, last) :: ffillFrom last rest

/-- The merged and forward-filled frame `production_and_consumption`
(lines 200-203). -/
def production_and_consumption (el_demand el_production : Series) :
    List (Nat × ℚ × Option ℚ) :=
  ffillFrom none (mergeLeft el_demand el_production)

/-- Lines 206-207: the production power (kW) is converted to energy per
quarter hour (kWh) by multiplying with 0.25; each row keeps
(demand kWh, production kWh). -/
def processedRows (el_production_timeseries el_demand_timeseries : Series) :
    List (ℚ × Option ℚ) :=
  (production_and_consumption el_demand_timeseries el_production_timeseries).map
    (fun r => (r.2.1, r.2.2.map (fun p => p * (25 / 100))))

/-- `electricity_price` (line 217). -/
def electricity_price : ℚ := 27 / 100

/-- `feed_in_tariff` (line 229). -/
def feed_in_tariff : ℚ := 803 / 10000

/-- Python `round(x, 2)`: rounding to the nearest multiple of 1/100. -/
def round2 (x : ℚ) : ℚ := ((round (x * 100) : ℤ) : ℚ) / 100

/-- Line 214: `df[['H00 recalculated [kWh]', 'el_production [kWh]']]
.min(axis=1)` with the pandas default `skipna=True`: the minimum of the
available row values; the demand column is always present. -/
def min_prod_cons (demand : ℚ) (production : Option ℚ) : ℚ :=
  match production with
  | none => demand
  | some p => min demand p

/-- Line 226: `(production - consumption).clip(lower=0)`; a missing production
cell stays missing. -/
def surplusRow (demand : ℚ) (production : Option ℚ) : Option ℚ :=
  production.map (fun p => max (p - demand) 0)

/-- A pandas column sum with the default `skipna=True`: missing cells are
skipped. -/
def optSum : List (Option ℚ) → ℚ
  | [] => 0
  | none :: rest => optSum rest
  | some x :: rest => x + optSum rest

/-- Pointwise order on optional column cells: missing cells compare only with
missing cells. -/
def optLE (a b : Option ℚ) : Prop :=
  match a, b with
  | none, none => True
  | some x, some y => x ≤ y
  | _, _ => False

/-- `calculate_cost_savings` (lines 180-234). -/
def calculate_cost_savings (el_production_timeseries el_demand_timeseries : Series) :
    ℚ × ℚ :=
  let rows := processedRows el_production_timeseries el_demand_timeseries
  let saved_costs := rows.map (fun r => min_prod_cons r.1 r.2 * electricity_price)
  let cost_savings_GGV := round2 saved_costs.sum
  let production_surplus := rows.map (fun r => surplusRow r.1 r.2)
  let profit_grid_feed_in := round2 (optSum production_surplus * feed_in_tariff)
  (cost_savings_GGV, profit_grid_feed_in)

/-- The total production energy (kWh) appearing in the merged frame: the sum
of the forward-filled production column after the kW-to-kWh conversion. -/
def prodEnergyTotal (el_production_timeseries el_demand_timeseries : Series) : ℚ :=
  optSum ((processedRows el_production_timeseries el_demand_timeseries).map
    (fun r => r.2))

/-- `CO2_emission_factor` (line 252). -/
def CO2_emission_factor : ℚ := 380 / 1000

/-- `calculate_CO2_reduction` (lines 236-259): from the monthly frame
(month label, production kWh) to (annual CO2 reduction, monthly CO2
reduction). -/
def calculate_CO2_reduction (monthly_el_production : List (String × ℚ)) :
    ℚ × List (String × ℚ) :=
  let monthly_CO2_reduction :=
    monthly_el_production.map (fun r => (r.1, round2 (r.2 * CO2_emission_factor)))
  let annual_CO2_reduction := (monthly_CO2_reduction.map (fun r => r.2)).sum
  (annual_CO2_reduction, monthly_CO2_reduction)

/-- Modelled from the spec: `calculate_payback_period` is invoked from
`app/main.py` (line 62) but its definition is not among the provided source
files. Per the spec it is total_system_cost / (cost_savings +
grid_feed_in_profit) in years, undefined when the denominator is zero — the
undefined case must be reported explicitly, never a silent division by
zero. -/
def calculate_payback_period (cost_savings_GGV profit_grid_feed_in total_cost : ℚ) :
    Option ℚ :=
  if cost_savings_GGV + profit_grid_feed_in = 0 then none
  else some (total_cost / (cost_savings_GGV + profit_grid_feed_in))

/-- Modelled from the spec: the `pv_system.total_cost` value read by
`app/main.py` (line 62) is not set anywhere in the provided source files; per
the spec the total system cost is a cost-per-kWp constant multiplied by the
sized capacity. -/
def total_system_cost (cost_per_kWp size : ℚ) : ℚ := cost_per_kWp * size

/-- The payback-relevant part of the `/api/calculate` response body. -/
structure CalculateResponse where
  cost_savings_GGV : ℚ
  profit_grid_feed_in : ℚ
  payback_period : Option ℚ
  deriving DecidableEq

/-- Modelled from the spec: the `/api/calculate` pipeline of `app/main.py`
(lines 58-73), restricted to the stages embedded here. The hourly production
time series comes from the external PVGIS simulation and is therefore a
parameter, and the cost-per-kWp policy constant is a parameter because no
provided source file sets it. -/
def calculate_pv_system_endpoint (annual_el_demand cost_per_kWp : ℚ)
    (el_production_timeseries : Series) (fileRows : List SLPRow) (heap : Heap) :
    Except String CalculateResponse :=
  let pv_system := (create_pv_system annual_el_demand heap).1
  match estimate_hourly_el_consumption annual_el_demand fileRows with
  | Except.error e => Except.error e
  | Except.ok el_demand_timeseries =>
    let cs := calculate_cost_savings el_production_timeseries el_demand_timeseries
    let payback_period :=
      calculate_payback_period cs.1 cs.2
        (total_system_cost cost_per_kWp (pv_system.size.getD 0))
    Except.ok
      { cost_savings_GGV := cs.1
        profit_grid_feed_in := cs.2
        payback_period := payback_period }

/-- The last present value of an optional column, scanning left to right. -/
def lastSome : List (Option ℚ) → Option ℚ
  | [] => none
  | x :: rest =>
    match lastSome rest with
    | some v => some v
    | none => x

/-- A well-formed reference file: 35040 rows, each with a timestamp and the
load value 1 kWh (a fixture used to instantiate theorems). -/
def goodSLPRow : SLPRow := { zeitstempel_von := some 0, h00 := some 1 }

/-- See `goodSLPRow`. -/
def slpFile35040 : List SLPRow := List.replicate 35040 goodSLPRow

/-- A reference file with one malformed row (missing timestamp, load value 5)
in front of 35040 well-formed rows. -/
def slpFileWithBadRow : List SLPRow :=
  { zeitstempel_von := none, h00 := some 5 } :: slpFile35040

/-! ## General helper lemmas -/

theorem sum_map_mul (l : List ℚ) (c : ℚ) :
    (l.map (fun v => v * c)).sum = l.sum * c := by
  induction l with
  | nil => simp
  | cons x xs ih => simp [ih, add_mul]

theorem round2_zero : round2 0 = 0 := by
  simp [round2]

theorem round2_mono {x y : ℚ} (h : x ≤ y) : round2 x ≤ round2 y := by
  unfold round2
  have hr : round (x * 100) ≤ round (y * 100) := by
    rw [round_eq, round_eq]
    exact Int.floor_le_floor (by linarith)
  have : ((round (x * 100) : ℤ) : ℚ) ≤ ((round (y * 100) : ℤ) : ℚ) := by
    exact_mod_cast hr
  gcongr

/-- C1: at every position, the forward-filled production column holds the last
present production value among the merged rows up to that position, the fill
seed when none has occurred yet. -/
theorem ffillFrom_get (l : List (Nat × ℚ × Option ℚ)) :
    ∀ (last : Option ℚ) (i : Nat) (hi : i < (ffillFrom last l).length),
      ((ffillFrom last l).get ⟨i, hi⟩).2.2 =
        (lastSome ((l.take (i + 1)).map (fun r => r.2.2))).or last := by
  induction l with
  | nil => intro last i hi; simp [ffillFrom] at hi
  | cons r rest ih =>
    obtain ⟨t, dv, p?⟩ := r
    intro last i hi
    cases p? with
    | some p =>
      cases i with
      | zero => simp [ffillFrom, lastSome, Option.or]
      | succ i =>
        have hi' : i < (ffillFrom (some p) rest).length := by
          simpa [ffillFrom] using hi
        have hstep :
            ((ffillFrom last ((t, dv, some p) :: rest)).get ⟨i + 1, hi⟩).2.2 =
              ((ffillFrom (some p) rest).get ⟨i, hi'⟩).2.2 := rfl
        rw [hstep, ih (some p) i hi', List.take_succ_cons, List.map_cons]
        cases hls : lastSome ((rest.take (i + 1)).map (fun r => r.2.2)) with
        | some v => simp only [lastSome, hls, Option.or]
        | none => simp only [lastSome, hls, Option.or]
    | none =>
      cases i with
      | zero => simp [ffillFrom, lastSome, Option.or]
      | succ i =>
        have hi' : i < (ffillFrom last rest).length := by
          simpa [ffillFrom] using hi
        have hstep :
            ((ffillFrom last ((t, dv, none) :: rest)).get ⟨i + 1, hi⟩).2.2 =
              ((ffillFrom last rest).get ⟨i, hi'⟩).2.2 := rfl
        rw [hstep, ih last i hi', List.take_succ_cons, List.map_cons]
        cases hls : lastSome ((rest.take (i + 1)).map (fun r => r.2.2)) with
        | some v => simp only [lastSome, hls, Option.or]
        | none => simp only [lastSome, hls, Option.or]

theorem dropna_replicate_good (n : Nat) :
    dropna (List.replicate n goodSLPRow) = List.replicate n goodSLPRow := by
  induction n with
  | zero => rfl
  | succ n ih =>
    simp only [List.replicate_succ, dropna, List.filter] at ih ⊢
    rw [ih]
    rfl

theorem dateIndex2023_length : dateIndex2023.length = 35040 := by
  simp [dateIndex2023]

theorem st_total_slpFile : st_total_annual_consumption slpFile35040 = 35040 := by
  unfold st_total_annual_consumption slpFile35040
  rw [dropna_replicate_good, List.map_replicate, List.sum_replicate]
  simp [goodSLPRow]

theorem estimate_slpFile (d : ℚ) :
    estimate_hourly_el_consumption d slpFile35040 =
      Except.ok (dateIndex2023.zip (List.replicate 35040 (1 * (d / 35040)))) := by
  unfold estimate_hourly_el_consumption
  rw [show dropna slpFile35040 = slpFile35040 from dropna_replicate_good 35040]
  rw [if_pos (by unfold slpFile35040; rw [List.length_replicate, dateIndex2023_length])]
  rw [if_neg (by rw [st_total_slpFile]; norm_num)]
  rw [st_total_slpFile]
  unfold slpFile35040
  simp only [List.map_replicate, goodSLPRow, Option.getD_some]

theorem dropna_badRow : dropna slpFileWithBadRow = slpFile35040 := by
  unfold slpFileWithBadRow dropna
  rw [List.filter_cons_of_neg (by decide)]
  exact dropna_replicate_good 35040

theorem st_total_badRow : st_total_annual_consumption slpFileWithBadRow = 35040 := by
  unfold st_total_annual_consumption
  rw [dropna_badRow]
  conv_lhs =>
    rw [show slpFile35040 = dropna slpFile35040 from (dropna_replicate_good 35040).symm]
  exact st_total_slpFile

theorem fullFileTotal_split (rows : List SLPRow) :
    fullFileTotal rows = st_total_annual_consumption rows + droppedTotal rows := by
  induction rows with
  | nil => simp [fullFileTotal, st_total_annual_consumption, droppedTotal, dropna]
  | cons r rs ih =>
    unfold fullFileTotal st_total_annual_consumption droppedTotal dropna at ih ⊢
    by_cases hk : keptRow r = true
    · have hsome : ∃ v, r.h00 = some v := by
        unfold keptRow at hk
        rcases hh : r.h00 with _ | v
        · rw [hh] at hk
          simp at hk
        · exact ⟨v, rfl⟩
      obtain ⟨v, hv⟩ := hsome
      rw [List.filter_cons_of_pos hk,
        @List.filter_cons_of_neg SLPRow (fun r => ! keptRow r) r rs (by simp [hk])]
      simp only [List.filterMap_cons, hv, List.map_cons, List.sum_cons, Option.getD_some]
      linarith [ih]
    · have hkf : keptRow r = false := by
        revert hk
        cases keptRow r <;> simp
      rw [List.filter_cons_of_neg hk,
        @List.filter_cons_of_pos SLPRow (fun r => ! keptRow r) r rs (by simp [hkf])]
      rcases hv : r.h00 with _ | v
      · simp only [List.filterMap_cons, hv]
        exact ih
      · simp only [List.filterMap_cons, hv, List.sum_cons]
        linarith [ih]

/-! ## Claim theorems -/

/-- C1 (counterexample): with hourly production values 8 kW at minute 0 and
4 kW at minute 60, the quarter hours 15/30/45 — which precede the new hourly
production value 4 — inherit the earlier value 8 after the merge and
`fillna(method='ffill')`, not the later value 4 that back-filling would give,
so the claim that missing production values are back-filled is false. -/
theorem C1_counterexample :
    (production_and_consumption [(0, 1), (15, 1), (30, 1), (45, 1), (60, 1)]
        [(0, 8), (60, 4)]).map (fun r => r.2.2) =
      [some 8, some 8, some 8, some 8, some 4]
    ∧ some (8 : ℚ) ≠ some (4 : ℚ) := by
  constructor
  · rfl
  · decide

/-- C1 (amended): after the left merge of the 15-minute demand series with the
hourly production series, missing production values are forward-filled: every
quarter-hour timestamp inherits the production value of the latest
production timestamp at or before it among the preceding demand rows (and
stays missing when no production value has occurred yet). -/
theorem C1_forward_fill (el_demand el_production : Series) (i : Nat)
    (hi : i < (production_and_consumption el_demand el_production).length) :
    ((production_and_consumption el_demand el_production).get ⟨i, hi⟩).2.2 =
      lastSome ((el_demand.take (i + 1)).map
        (fun td => lookupTime td.1 el_production)) := by
  unfold production_and_consumption at hi ⊢
  rw [ffillFrom_get (mergeLeft el_demand el_production) none i hi, Option.or_none]
  congr 1
  unfold mergeLeft
  rw [← List.map_take, List.map_map]
  rfl

/-- Witness for C1 (amended) at a concrete input: the quarter hour at minute
15 inherits the hourly value at minute 0. -/
theorem C1_forward_fill_witness :
    ((production_and_consumption [(0, 1), (15, 1)] [(0, 8)]).get ⟨1, by decide⟩).2.2 =
      lastSome (([((0 : Nat), (1 : ℚ)), (15, 1)].take 2).map
        (fun td => lookupTime td.1 [(0, 8)])) :=
  C1_forward_fill [(0, 1), (15, 1)] [(0, 8)] 1 (by decide)

/-- C3: `create_pv_system` allocates a fresh class object on every call, so no
state is shared between two pipeline runs: the spec produced for a second run
is the same whatever demand an earlier run used (and whatever was already on
the heap), its size is the second run's demand / 1000, and the first run's
object is left unchanged on the heap. -/
theorem C3_request_isolation (d1 d2 : ℚ) (heap : Heap) :
    (create_pv_system d2 (create_pv_system d1 heap).2).1 = (create_pv_system d2 heap).1
    ∧ (create_pv_system d2 (create_pv_system d1 heap).2).1.size = some (d2 / 1000)
    ∧ ((create_pv_system d2 (create_pv_system d1 heap).2).2)[heap.length]? =
        some { size := some (d1 / 1000), cost_per_kWp := none, annual_production := none } := by
  refine ⟨rfl, rfl, ?_⟩
  show ((heap ++ [_]) ++ [_])[heap.length]? = _
  rw [List.getElem?_append_left (by simp), List.getElem?_concat_length]

/-- C4: for every processed 15-minute interval, the self-consumed energy is
min(production_kWh, demand_kWh), the surplus is max(production_kWh −
demand_kWh, 0), the surplus is never negative and vanishes when demand covers
production, and self-consumption plus surplus reconstructs the production
whenever production ≥ demand, while otherwise the self-consumption is the
whole production and the surplus is 0. -/
theorem C4_interval_energy (p d : ℚ) :
    min_prod_cons d (some p) = min p d
    ∧ surplusRow d (some p) = some (max (p - d) 0)
    ∧ 0 ≤ max (p - d) 0
    ∧ (p ≤ d → max (p - d) 0 = 0)
    ∧ (d ≤ p → min_prod_cons d (some p) + max (p - d) 0 = p)
    ∧ (p ≤ d → min_prod_cons d (some p) = p ∧ max (p - d) 0 = 0) := by
  refine ⟨by simp [min_prod_cons, min_comm], rfl, le_max_right _ _, ?_, ?_, ?_⟩
  · intro h
    exact max_eq_right (sub_nonpos.mpr h)
  · intro h
    have h1 : min_prod_cons d (some p) = d := by
      simp [min_prod_cons, min_eq_left h]
    rw [h1, max_eq_left (sub_nonneg.mpr h)]
    ring
  · intro h
    exact ⟨by simp [min_prod_cons, min_eq_right h], max_eq_right (sub_nonpos.mpr h)⟩

/-- Witness for C4 at production = demand = 2. -/
theorem C4_interval_energy_witness :
    ((2 : ℚ) ≤ 2)
    ∧ min_prod_cons 2 (some 2) + max ((2 : ℚ) - 2) 0 = 2
    ∧ max ((2 : ℚ) - 2) 0 = 0 :=
  ⟨le_rfl, (C4_interval_energy 2 2).2.2.2.2.1 le_rfl,
    (C4_interval_energy 2 2).2.2.2.1 le_rfl⟩

/-- C9 (counterexample): for a monthly production of 1.1 kWh the code returns
the rounded value 0.42, not 1.1 × 0.380 = 0.418, and the annual figure is
0.42 as well; so neither the monthly values nor the annual sum equal the
unrounded products. -/
theorem C9_counterexample :
    calculate_CO2_reduction [("January", 11 / 10)] = (42 / 100, [("January", 42 / 100)])
    ∧ (42 / 100 : ℚ) ≠ (11 / 10) * CO2_emission_factor := by
  constructor
  · simp only [calculate_CO2_reduction, List.map_cons, List.map_nil, List.sum_cons,
      List.sum_nil, round2, CO2_emission_factor, Prod.mk.injEq, List.cons.injEq,
      and_true, true_and]
    norm_num [round_eq]
  · norm_num [CO2_emission_factor]

/-- C9 (amended): `calculate_CO2_reduction` returns, for each month, the
monthly production multiplied by the emission factor 0.380 kg/kWh rounded to
two decimals, and an annual figure equal to the sum of these rounded monthly
values. -/
theorem C9_CO2_rounded (monthly : List (String × ℚ)) :
    (calculate_CO2_reduction monthly).2 =
      monthly.map (fun r => (r.1, round2 (r.2 * CO2_emission_factor)))
    ∧ (calculate_CO2_reduction monthly).1 =
      ((calculate_CO2_reduction monthly).2.map Prod.snd).sum :=
  ⟨rfl, rfl⟩

/-- C7 (counterexample): with a zero demand interval and a production of 1 kW
over one quarter hour (0.25 kWh), the returned grid feed-in profit is the
rounded 0.02, while production times the feed-in tariff is 0.020075, so the
profit does not equal production × tariff exactly. -/
theorem C7_counterexample :
    calculate_cost_savings [(0, 1)] [(0, 0)] = (0, 2 / 100)
    ∧ (2 / 100 : ℚ) ≠ (1 * (25 / 100)) * feed_in_tariff := by
  constructor
  · simp only [calculate_cost_savings, processedRows, production_and_consumption,
      mergeLeft, ffillFrom, lookupTime, List.map_cons, List.map_nil, List.sum_cons,
      List.sum_nil, min_prod_cons, surplusRow, optSum, electricity_price,
      feed_in_tariff, round2, Option.map_some, Prod.mk.injEq]
    norm_num [round_eq]
  · norm_num [feed_in_tariff]

/-- C5: for any reference profile with positive annual total and any target
annual demand T, the series returned by `estimate_hourly_el_consumption`
(every interval value multiplied by the scaling factor T / total) sums to
exactly T, independently of the reference total. -/
theorem C5_scaling_total (T : ℚ) (rows : List SLPRow) (s : Series)
    (hpos : 0 < st_total_annual_consumption rows)
    (h : estimate_hourly_el_consumption T rows = Except.ok s) :
    (s.map Prod.snd).sum = T := by
  simp only [estimate_hourly_el_consumption] at h
  split_ifs at h with h1 h2
  rw [Except.ok.injEq] at h
  subst h
  rw [List.map_snd_zip _ _ (by simp [List.length_map, h1])]
  rw [sum_map_mul]
  show st_total_annual_consumption rows * (T / st_total_annual_consumption rows) = T
  have hne : st_total_annual_consumption rows ≠ 0 := ne_of_gt hpos
  field_simp

/-- Witness for C5 at the fixture file (reference total 35040) and target 7. -/
theorem C5_scaling_total_witness :
    0 < st_total_annual_consumption slpFile35040
    ∧ ((dateIndex2023.zip (List.replicate 35040 ((1 : ℚ) * (7 / 35040)))).map
        Prod.snd).sum = 7 :=
  ⟨by rw [st_total_slpFile]; norm_num,
    C5_scaling_total 7 slpFile35040 _ (by rw [st_total_slpFile]; norm_num)
      (estimate_slpFile 7)⟩

/-- C10: whenever `estimate_hourly_el_consumption` returns instead of raising,
the returned series is indexed by exactly the 35040 fifteen-minute timestamps
of 2023 (UTC), whatever the demand value and whatever timestamps appear in the
reference file. -/
theorem C10_fixed_index (d : ℚ) (rows : List SLPRow) (s : Series)
    (h : estimate_hourly_el_consumption d rows = Except.ok s) :
    s.map Prod.fst = dateIndex2023 ∧ s.length = 35040 := by
  simp only [estimate_hourly_el_consumption] at h
  split_ifs at h with h1 h2
  rw [Except.ok.injEq] at h
  subst h
  constructor
  · exact List.map_fst_zip _ _ (by simp [List.length_map, h1])
  · simp [List.length_zip, List.length_map, h1, dateIndex2023_length]

/-- Witness for C10 at the fixture file and demand 3. -/
theorem C10_fixed_index_witness :
    (dateIndex2023.zip (List.replicate 35040 ((1 : ℚ) * (3 / 35040)))).map
        Prod.fst = dateIndex2023
    ∧ (dateIndex2023.zip (List.replicate 35040 ((1 : ℚ) * (3 / 35040)))).length = 35040 :=
  C10_fixed_index 3 slpFile35040 _ (estimate_slpFile 3)

/-- C8: rows of the reference file with a missing value are dropped and the
computation proceeds on the remaining rows — so when a dropped row carried a
positive load value (and all values are nonnegative), the reference annual
total used for scaling is strictly smaller than the sum of all present values
of the file, and the run still completes and returns a scaled series. -/
theorem C8_missing_rows_dropped (d : ℚ) (rows : List SLPRow)
    (hnn : ∀ r ∈ rows, ∀ v, r.h00 = some v → 0 ≤ v)
    (hbad : ∃ r ∈ rows, keptRow r = false ∧ ∃ v, r.h00 = some v ∧ 0 < v)
    (hlen : (dropna rows).length = dateIndex2023.length)
    (hne : st_total_annual_consumption rows ≠ 0) :
    st_total_annual_consumption rows < fullFileTotal rows
    ∧ ∃ s, estimate_hourly_el_consumption d rows = Except.ok s := by
  constructor
  · rw [fullFileTotal_split rows]
    have hdrop_pos : 0 < droppedTotal rows := by
      obtain ⟨r, hr, hkf, v, hv, hvpos⟩ := hbad
      have hmem : r ∈ rows.filter (fun r => ! keptRow r) :=
        List.mem_filter.mpr ⟨hr, by simp [hkf]⟩
      have hvmem : v ∈ (rows.filter (fun r => ! keptRow r)).filterMap (fun r => r.h00) :=
        List.mem_filterMap.mpr ⟨r, hmem, hv⟩
      have hall : ∀ x ∈ (rows.filter (fun r => ! keptRow r)).filterMap
          (fun r => r.h00), 0 ≤ x := by
        intro x hx
        obtain ⟨q, hq, hq2⟩ := List.mem_filterMap.mp hx
        exact hnn q (List.mem_of_mem_filter hq) x hq2
      have hle := List.single_le_sum hall v hvmem
      unfold droppedTotal
      linarith
    linarith
  · exact ⟨_, by
      simp only [estimate_hourly_el_consumption]
      rw [if_pos hlen, if_neg hne]⟩

/-- C2: for every request the `/api/calculate` pipeline answers, the payback
period is total system cost (cost-per-kWp times the sized capacity, demand /
1000) divided by the combined yearly gain, and a zero combined gain is
reported as an explicit undefined (`none`) value instead of being divided
by. -/
theorem C2_payback_period (annual_el_demand cost_per_kWp : ℚ) (prod : Series)
    (rows : List SLPRow) (heap : Heap) (resp : CalculateResponse)
    (h : calculate_pv_system_endpoint annual_el_demand cost_per_kWp prod rows heap =
      Except.ok resp) :
    (resp.cost_savings_GGV + resp.profit_grid_feed_in = 0 → resp.payback_period = none)
    ∧ (resp.cost_savings_GGV + resp.profit_grid_feed_in ≠ 0 →
        resp.payback_period =
          some (total_system_cost cost_per_kWp (annual_el_demand / 1000) /
            (resp.cost_savings_GGV + resp.profit_grid_feed_in))) := by
  simp only [calculate_pv_system_endpoint] at h
  cases he : estimate_hourly_el_consumption annual_el_demand rows with
  | error e =>
    rw [he] at h
    simp at h
  | ok dem =>
    rw [he] at h
    simp only [Except.ok.injEq] at h
    subst h
    refine ⟨fun h0 => ?_, fun h0 => ?_⟩
    · simp [calculate_payback_period, h0]
    · simp [calculate_payback_period, h0, create_pv_system, total_system_cost]

theorem endpoint_eq_of_ok (d c : ℚ) (prod : Series) (rows : List SLPRow)
    (heap : Heap) (dem : Series)
    (he : estimate_hourly_el_consumption d rows = Except.ok dem) :
    calculate_pv_system_endpoint d c prod rows heap =
      Except.ok
        { cost_savings_GGV := (calculate_cost_savings prod dem).1
          profit_grid_feed_in := (calculate_cost_savings prod dem).2
          payback_period := calculate_payback_period (calculate_cost_savings prod dem).1
            (calculate_cost_savings prod dem).2 (total_system_cost c (d / 1000)) } := by
  unfold calculate_pv_system_endpoint
  rw [he]
  rfl

theorem optSum_all_none :
    ∀ (l : List (Option ℚ)), (∀ x ∈ l, x = none) → optSum l = 0 := by
  intro l
  induction l with
  | nil => intro _; rfl
  | cons x rest ih =>
    intro hall
    have hx := hall x (List.mem_cons_self _ _)
    subst hx
    show optSum rest = 0
    exact ih fun y hy => hall y (List.mem_cons_of_mem _ hy)

theorem ffillFrom_all_none :
    ∀ (l : List (Nat × ℚ × Option ℚ)), (∀ r ∈ l, r.2.2 = (none : Option ℚ)) →
      ffillFrom none l = l := by
  intro l
  induction l with
  | nil => intro _; rfl
  | cons r rest ih =>
    intro hall
    obtain ⟨t, dv, p?⟩ := r
    have h0 : p? = none := hall (t, dv, p?) (List.mem_cons_self _ _)
    subst h0
    show (t, dv, (none : Option ℚ)) :: ffillFrom none rest = _
    rw [ih fun q hq => hall q (List.mem_cons_of_mem _ hq)]

theorem processedRows_empty_prod (dem : Series) :
    processedRows [] dem = dem.map (fun td => (td.2, (none : Option ℚ))) := by
  unfold processedRows production_and_consumption
  have hm : mergeLeft dem [] = dem.map (fun td => (td.1, td.2, (none : Option ℚ))) := rfl
  rw [hm, ffillFrom_all_none]
  · rw [List.map_map]
    rfl
  · intro r hr
    obtain ⟨td, _, rfl⟩ := List.mem_map.mp hr
    rfl

theorem cost_savings_empty_prod (dem : Series) (hz : ∀ x ∈ dem, x.2 = 0) :
    calculate_cost_savings [] dem = (0, 0) := by
  simp only [calculate_cost_savings]
  rw [processedRows_empty_prod]
  have hsaved :
      ((dem.map (fun td => (td.2, (none : Option ℚ)))).map
        (fun r => min_prod_cons r.1 r.2 * electricity_price)).sum = 0 := by
    apply List.sum_eq_zero
    intro x hx
    rw [List.map_map] at hx
    obtain ⟨td, htd, rfl⟩ := List.mem_map.mp hx
    show min_prod_cons td.2 none * electricity_price = 0
    rw [show min_prod_cons td.2 none = td.2 from rfl, hz td htd, zero_mul]
  have hsurp :
      optSum ((dem.map (fun td => (td.2, (none : Option ℚ)))).map
        (fun r => surplusRow r.1 r.2)) = 0 := by
    apply optSum_all_none
    intro x hx
    rw [List.map_map] at hx
    obtain ⟨td, _, rfl⟩ := List.mem_map.mp hx
    rfl
  rw [hsaved, hsurp, round2_zero, zero_mul, round2_zero]

theorem endpoint_zero_fixture :
    calculate_pv_system_endpoint 0 1000 [] slpFile35040 [] =
      Except.ok
        { cost_savings_GGV := 0, profit_grid_feed_in := 0, payback_period := none } := by
  rw [endpoint_eq_of_ok 0 1000 [] slpFile35040 [] _ (estimate_slpFile 0)]
  have hz : ∀ x ∈ dateIndex2023.zip (List.replicate 35040 ((1 : ℚ) * (0 / 35040))),
      x.2 = 0 := by
    intro x hx
    obtain ⟨a, b⟩ := x
    have hb := (List.of_mem_zip hx).2
    rw [List.eq_of_mem_replicate hb]
    norm_num
  rw [cost_savings_empty_prod _ hz]
  simp [calculate_payback_period]

/-- Witness for C2 at demand 0, cost 1000 per kWp, empty production and the
fixture reference file: both gains are 0 and the payback period is reported
as the explicit undefined value. -/
theorem C2_payback_period_witness :
    calculate_pv_system_endpoint 0 1000 [] slpFile35040 [] =
      Except.ok
        { cost_savings_GGV := 0, profit_grid_feed_in := 0, payback_period := none }
    ∧ CalculateResponse.payback_period
        { cost_savings_GGV := 0, profit_grid_feed_in := 0, payback_period := none } =
      none :=
  ⟨endpoint_zero_fixture,
    (C2_payback_period 0 1000 [] slpFile35040 [] _ endpoint_zero_fixture).1
      (by norm_num)⟩

/-- Witness for C8: the fixture file with one extra row whose timestamp is
missing but whose load value is 5. -/
theorem C8_missing_rows_dropped_witness :
    st_total_annual_consumption slpFileWithBadRow < fullFileTotal slpFileWithBadRow
    ∧ ∃ s, estimate_hourly_el_consumption 5000 slpFileWithBadRow = Except.ok s :=
  C8_missing_rows_dropped 5000 slpFileWithBadRow
    (by
      intro r hr v hv
      simp only [slpFileWithBadRow, slpFile35040, List.mem_cons] at hr
      rcases hr with rfl | hr
      · injection hv with h
        rw [← h]
        norm_num
      · rw [List.eq_of_mem_replicate hr] at hv
        injection hv with h
        rw [← h]
        norm_num)
    ⟨{ zeitstempel_von := none, h00 := some 5 }, List.mem_cons_self _ _,
      by decide, 5, rfl, by norm_num⟩
    (by
      rw [dropna_badRow]
      unfold slpFile35040
      rw [List.length_replicate, dateIndex2023_length])
    (by rw [st_total_badRow]; norm_num)

theorem lookupTime_mem :
    ∀ (prod : Series) (t : Nat) (v : ℚ), lookupTime t prod = some v → (t, v) ∈ prod := by
  intro prod
  induction prod with
  | nil =>
    intro t v h
    simp [lookupTime] at h
  | cons x rest ih =>
    intro t v h
    obtain ⟨s, w⟩ := x
    by_cases hst : s = t
    · subst hst
      have hw : some w = some v := by simpa [lookupTime] using h
      injection hw with hw
      subst hw
      exact List.mem_cons_self _ _
    · have h2 : lookupTime t rest = some v := by simpa [lookupTime, hst] using h
      exact List.mem_cons_of_mem _ (ih t v h2)

theorem ffillFrom_col_source :
    ∀ (l : List (Nat × ℚ × Option ℚ)) (last : Option ℚ) (r : Nat × ℚ × Option ℚ),
      r ∈ ffillFrom last l → ∀ p : ℚ, r.2.2 = some p →
        (∃ q ∈ l, q.2.2 = some p) ∨ last = some p := by
  intro l
  induction l with
  | nil =>
    intro last r hr
    simp [ffillFrom] at hr
  | cons x rest ih =>
    obtain ⟨t, dv, p?⟩ := x
    intro last r hr p hp
    cases p? with
    | some w =>
      rcases List.mem_cons.mp hr with rfl | hr2
      · exact Or.inl ⟨(t, dv, some w), List.mem_cons_self _ _, hp⟩
      · rcases ih (some w) r hr2 p hp with h | h
        · obtain ⟨q, hq, hq2⟩ := h
          exact Or.inl ⟨q, List.mem_cons_of_mem _ hq, hq2⟩
        · exact Or.inl ⟨(t, dv, some w), List.mem_cons_self _ _, h⟩
    | none =>
      rcases List.mem_cons.mp hr with rfl | hr2
      · exact Or.inr hp
      · rcases ih last r hr2 p hp with h | h
        · obtain ⟨q, hq, hq2⟩ := h
          exact Or.inl ⟨q, List.mem_cons_of_mem _ hq, hq2⟩
        · exact Or.inr h

theorem ffillFrom_fst_demand :
    ∀ (l : List (Nat × ℚ × Option ℚ)) (last : Option ℚ) (r : Nat × ℚ × Option ℚ),
      r ∈ ffillFrom last l → ∃ q ∈ l, q.1 = r.1 ∧ q.2.1 = r.2.1 := by
  intro l
  induction l with
  | nil =>
    intro last r hr
    simp [ffillFrom] at hr
  | cons x rest ih =>
    obtain ⟨t, dv, p?⟩ := x
    intro last r hr
    cases p? with
    | some w =>
      rcases List.mem_cons.mp hr with rfl | hr2
      · exact ⟨(t, dv, some w), List.mem_cons_self _ _, rfl, rfl⟩
      · obtain ⟨q, hq, hq2⟩ := ih (some w) r hr2
        exact ⟨q, List.mem_cons_of_mem _ hq, hq2⟩
    | none =>
      rcases List.mem_cons.mp hr with rfl | hr2
      · exact ⟨(t, dv, none), List.mem_cons_self _ _, rfl, rfl⟩
      · obtain ⟨q, hq, hq2⟩ := ih last r hr2
        exact ⟨q, List.mem_cons_of_mem _ hq, hq2⟩

theorem processedRows_mem (prod dem : Series) (r : ℚ × Option ℚ)
    (hr : r ∈ processedRows prod dem) :
    (∃ q ∈ dem, q.2 = r.1)
    ∧ ∀ pk : ℚ, r.2 = some pk → ∃ tv ∈ prod, pk = tv.2 * (25 / 100) := by
  unfold processedRows production_and_consumption at hr
  obtain ⟨u, hu, rfl⟩ := List.mem_map.mp hr
  constructor
  · obtain ⟨q, hq, _, hq2⟩ := ffillFrom_fst_demand _ none u hu
    obtain ⟨td, htd, rfl⟩ := List.mem_map.mp hq
    exact ⟨td, htd, hq2⟩
  · intro pk hpk
    obtain ⟨p, hp, rfl⟩ := Option.map_eq_some'.mp hpk
    rcases ffillFrom_col_source _ none u hu p hp with h | h
    · obtain ⟨q, hq, hq2⟩ := h
      obtain ⟨td, _, rfl⟩ := List.mem_map.mp hq
      exact ⟨(td.1, p), lookupTime_mem prod td.1 p hq2, rfl⟩
    · simp at h

/-- C7 (amended): with annual demand 0 the scaled consumption series is all
zeros, and on an all-zero demand series with a nonnegative production series
`calculate_cost_savings` returns cost_savings_GGV = 0 and a grid feed-in
profit equal to the total production energy times the feed-in tariff rounded
to two decimals. -/
theorem C7_zero_demand_rounded :
    (∀ (rows : List SLPRow) (s : Series) (i : Nat) (hi : i < s.length),
        estimate_hourly_el_consumption 0 rows = Except.ok s → (s.get ⟨i, hi⟩).2 = 0)
    ∧ (∀ (prod dem : Series), (∀ x ∈ dem, x.2 = 0) → (∀ x ∈ prod, 0 ≤ x.2) →
        calculate_cost_savings prod dem =
          (0, round2 (prodEnergyTotal prod dem * feed_in_tariff))) := by
  constructor
  · intro rows s i hi h
    have hall : ∀ x ∈ s, x.2 = 0 := by
      simp only [estimate_hourly_el_consumption] at h
      split_ifs at h with h1 h2
      rw [Except.ok.injEq] at h
      subst h
      intro x hx
      obtain ⟨a, b⟩ := x
      have hb := (List.of_mem_zip hx).2
      obtain ⟨v, _, rfl⟩ := List.mem_map.mp hb
      show v * (0 / st_total_annual_consumption rows) = 0
      rw [zero_div, mul_zero]
    exact hall _ (s.get_mem _ _)
  · intro prod dem hz hp
    have hrows : ∀ r ∈ processedRows prod dem,
        r.1 = 0 ∧ ∀ pk : ℚ, r.2 = some pk → 0 ≤ pk := by
      intro r hr
      obtain ⟨⟨q, hq, hq2⟩, h2⟩ := processedRows_mem prod dem r hr
      refine ⟨by rw [← hq2]; exact hz q hq, fun pk hpk => ?_⟩
      obtain ⟨tv, htv, rfl⟩ := h2 pk hpk
      exact mul_nonneg (hp tv htv) (by norm_num)
    simp only [calculate_cost_savings]
    have hsaved : ((processedRows prod dem).map
        (fun r => min_prod_cons r.1 r.2 * electricity_price)).sum = 0 := by
      apply List.sum_eq_zero
      intro x hx
      obtain ⟨r, hr, rfl⟩ := List.mem_map.mp hx
      obtain ⟨h1, h2⟩ := hrows r hr
      rcases hr2 : r.2 with _ | pk
      · rw [show min_prod_cons r.1 none = r.1 from rfl, h1, zero_mul]
      · rw [show min_prod_cons r.1 (some pk) = min r.1 pk from rfl, h1,
          min_eq_left (h2 pk hr2), zero_mul]
    have hsurp : (processedRows prod dem).map (fun r => surplusRow r.1 r.2) =
        (processedRows prod dem).map (fun r => r.2) := by
      apply List.map_congr_left
      intro r hr
      obtain ⟨h1, h2⟩ := hrows r hr
      rcases hr2 : r.2 with _ | pk
      · rfl
      · rw [show surplusRow r.1 (some pk) = some (max (pk - r.1) 0) from rfl, h1]
        rw [sub_zero, max_eq_left (h2 pk hr2)]
    rw [hsaved, hsurp, round2_zero]
    rfl

/-- Witness for C7 (amended): the first interval of the zero-demand scaled
series is zero, and a one-interval example of the rounded feed-in identity. -/
theorem C7_zero_demand_rounded_witness :
    ((dateIndex2023.zip (List.replicate 35040 ((1 : ℚ) * (0 / 35040)))).get
        ⟨0, by rw [List.length_zip, dateIndex2023_length, List.length_replicate]; norm_num⟩).2 = 0
    ∧ calculate_cost_savings [(0, 1)] [(0, 0)] =
        (0, round2 (prodEnergyTotal [(0, 1)] [(0, 0)] * feed_in_tariff)) :=
  ⟨C7_zero_demand_rounded.1 slpFile35040 _ 0
      (by rw [List.length_zip, dateIndex2023_length, List.length_replicate]; norm_num)
      (estimate_slpFile 0),
    C7_zero_demand_rounded.2 [(0, 1)] [(0, 0)] (by decide) (by decide)⟩

theorem forall₂_map {α β γ δ : Type} {R : α → β → Prop} {S : γ → δ → Prop}
    (f : α → γ) (g : β → δ) :
    ∀ {l : List α} {l' : List β}, List.Forall₂ R l l' →
      (∀ a b, R a b → S (f a) (g b)) → List.Forall₂ S (l.map f) (l'.map g) := by
  intro l l' h hfg
  induction h with
  | nil => exact List.Forall₂.nil
  | cons hab _ ih => exact List.Forall₂.cons (hfg _ _ hab) ih

theorem forall₂_swap {α β : Type} {R : α → β → Prop} :
    ∀ {l : List α} {l' : List β}, List.Forall₂ R l l' →
      List.Forall₂ (fun b a => R a b) l' l := by
  intro l l' h
  induction h with
  | nil => exact List.Forall₂.nil
  | cons hab _ ih => exact List.Forall₂.cons hab ih

theorem forall₂_sum_le :
    ∀ {xs ys : List ℚ}, List.Forall₂ (· ≤ ·) xs ys → xs.sum ≤ ys.sum := by
  intro xs ys h
  induction h with
  | nil => exact le_refl 0
  | cons hab _ ih =>
    simp only [List.sum_cons]
    exact add_le_add hab ih

theorem optSum_le :
    ∀ {l l' : List (Option ℚ)}, List.Forall₂ optLE l l' → optSum l ≤ optSum l' := by
  intro l l' h
  induction h with
  | @cons a b l1 l2 hab _ ih =>
    cases a with
    | none =>
      cases b with
      | none => simpa [optSum] using ih
      | some y => exact absurd hab (by simp [optLE])
    | some x =>
      cases b with
      | none => exact absurd hab (by simp [optLE])
      | some y =>
        have hxy : x ≤ y := hab
        simp only [optSum]
        exact add_le_add hxy ih
  | nil => exact le_refl 0

theorem mergeLeft_rel (prod : Series) (dem dem' : Series)
    (h : List.Forall₂ (fun a b => a.1 = b.1 ∧ a.2 ≤ b.2) dem dem') :
    List.Forall₂ (fun (a b : Nat × ℚ × Option ℚ) => a.2.1 ≤ b.2.1 ∧ a.2.2 = b.2.2)
      (mergeLeft dem prod) (mergeLeft dem' prod) := by
  unfold mergeLeft
  refine forall₂_map _ _ h ?_
  intro a b hab
  exact ⟨hab.2, by rw [hab.1]⟩

theorem ffillFrom_rel :
    ∀ (l l' : List (Nat × ℚ × Option ℚ)) (last : Option ℚ),
      List.Forall₂ (fun a b => a.2.1 ≤ b.2.1 ∧ a.2.2 = b.2.2) l l' →
      List.Forall₂ (fun a b => a.2.1 ≤ b.2.1 ∧ a.2.2 = b.2.2)
        (ffillFrom last l) (ffillFrom last l') := by
  intro l
  induction l with
  | nil =>
    intro l' last h
    cases h
    exact List.Forall₂.nil
  | cons a rest ih =>
    intro l' last h
    cases h with
    | @cons _ b _ bs hab hrest =>
      obtain ⟨t, dv, p?⟩ := a
      obtain ⟨t', dv', q?⟩ := b
      obtain ⟨h1, h2⟩ := hab
      cases hq : q? with
      | some p =>
        rw [hq] at h2
        subst h2
        exact List.Forall₂.cons ⟨h1, rfl⟩ (ih bs (some p) hrest)
      | none =>
        rw [hq] at h2
        subst h2
        exact List.Forall₂.cons ⟨h1, rfl⟩ (ih bs last hrest)

theorem min_prod_cons_mono {d d' : ℚ} (p? : Option ℚ) (h : d ≤ d') :
    min_prod_cons d p? ≤ min_prod_cons d' p? := by
  cases p? with
  | none => exact h
  | some p => exact min_le_min h le_rfl

/-- Monotonicity core of calculate_cost_savings: a pointwise weakly larger
demand series (same timestamps) never decreases the savings and never
increases the feed-in profit. -/
theorem cost_savings_mono (prod dem dem' : Series)
    (h : List.Forall₂ (fun a b => a.1 = b.1 ∧ a.2 ≤ b.2) dem dem') :
    (calculate_cost_savings prod dem).1 ≤ (calculate_cost_savings prod dem').1
    ∧ (calculate_cost_savings prod dem').2 ≤ (calculate_cost_savings prod dem).2 := by
  have hm := ffillFrom_rel _ _ none (mergeLeft_rel prod dem dem' h)
  have hpr : List.Forall₂ (fun (a b : ℚ × Option ℚ) => a.1 ≤ b.1 ∧ a.2 = b.2)
      (processedRows prod dem) (processedRows prod dem') := by
    unfold processedRows production_and_consumption
    refine forall₂_map _ _ hm ?_
    intro a b hab
    exact ⟨hab.1, by rw [hab.2]⟩
  constructor
  · show round2 _ ≤ round2 _
    apply round2_mono
    apply forall₂_sum_le
    refine forall₂_map _ _ hpr ?_
    intro a b hab
    rw [← hab.2]
    exact mul_le_mul_of_nonneg_right (min_prod_cons_mono a.2 hab.1)
      (by norm_num [electricity_price])
  · show round2 _ ≤ round2 _
    apply round2_mono
    apply mul_le_mul_of_nonneg_right _ (by norm_num [feed_in_tariff])
    apply optSum_le
    refine forall₂_map _ _ (forall₂_swap hpr) ?_
    intro b a hab
    rw [← hab.2]
    cases hq : a.2 with
    | none => simp [surplusRow, optLE]
    | some pk =>
      show optLE (some (max (pk - b.1) 0)) (some (max (pk - a.1) 0))
      show max (pk - b.1) 0 ≤ max (pk - a.1) 0
      exact max_le_max (sub_le_sub_left hab.1 pk) le_rfl

theorem forall₂_zip_of_le :
    ∀ (as : List Nat) {bs bs' : List ℚ}, List.Forall₂ (· ≤ ·) bs bs' →
      List.Forall₂ (fun (a b : Nat × ℚ) => a.1 = b.1 ∧ a.2 ≤ b.2)
        (as.zip bs) (as.zip bs') := by
  intro as
  induction as with
  | nil =>
    intro bs bs' _
    exact List.Forall₂.nil
  | cons a as ih =>
    intro bs bs' h
    cases h with
    | nil => exact List.Forall₂.nil
    | cons hxy hrest => exact List.Forall₂.cons ⟨rfl, hxy⟩ (ih hrest)

theorem map_mul_le (l : List ℚ) (c c' : ℚ) (hc : c ≤ c') (hl : ∀ x ∈ l, 0 ≤ x) :
    List.Forall₂ (· ≤ ·) (l.map (fun v => v * c)) (l.map (fun v => v * c')) := by
  induction l with
  | nil => exact List.Forall₂.nil
  | cons x xs ih =>
    exact List.Forall₂.cons
      (mul_le_mul_of_nonneg_left hc (hl x (List.mem_cons_self _ _)))
      (ih fun y hy => hl y (List.mem_cons_of_mem _ hy))

/-- The two scaled demand series of one reference file are pointwise ordered
when the target annual demands are. -/
theorem estimate_le (rows : List SLPRow) (T T' : ℚ) (s s' : Series)
    (hT : T ≤ T')
    (hnn : ∀ r ∈ rows, ∀ v : ℚ, r.h00 = some v → 0 ≤ v)
    (hpos : 0 < st_total_annual_consumption rows)
    (h : estimate_hourly_el_consumption T rows = Except.ok s)
    (h' : estimate_hourly_el_consumption T' rows = Except.ok s') :
    List.Forall₂ (fun (a b : Nat × ℚ) => a.1 = b.1 ∧ a.2 ≤ b.2) s s' := by
  simp only [estimate_hourly_el_consumption] at h h'
  split_ifs at h h' with h1 h2
  rw [Except.ok.injEq] at h h'
  subst h
  subst h'
  apply forall₂_zip_of_le
  apply map_mul_le
  · exact div_le_div_of_nonneg_right hT hpos.le
  · intro x hx
    obtain ⟨r, hr, rfl⟩ := List.mem_map.mp hx
    rcases hh : r.h00 with _ | v
    · simp [hh]
    · have := hnn r (List.mem_of_mem_filter hr) v hh
      simpa [hh] using this

/-- C6: for a fixed production time series, raising the annual electricity
demand (so the scaled consumption series rises weakly at every interval)
never decreases cost_savings_GGV and never increases profit_grid_feed_in. -/
theorem C6_demand_monotonicity (prod : Series) (rows : List SLPRow) (T T' : ℚ)
    (s s' : Series) (hT : T ≤ T')
    (hnn : ∀ r ∈ rows, ∀ v : ℚ, r.h00 = some v → 0 ≤ v)
    (hpos : 0 < st_total_annual_consumption rows)
    (h : estimate_hourly_el_consumption T rows = Except.ok s)
    (h' : estimate_hourly_el_consumption T' rows = Except.ok s') :
    (calculate_cost_savings prod s).1 ≤ (calculate_cost_savings prod s').1
    ∧ (calculate_cost_savings prod s').2 ≤ (calculate_cost_savings prod s).2 :=
  cost_savings_mono prod s s' (estimate_le rows T T' s s' hT hnn hpos h h')

/-- Witness for C6: the fixture reference file, a one-hour production series
of 8 kW-, and annual demands 0 and 7. -/
theorem C6_demand_monotonicity_witness :
    (calculate_cost_savings [(0, 8)]
        (dateIndex2023.zip (List.replicate 35040 ((1 : ℚ) * (0 / 35040))))).1 ≤
      (calculate_cost_savings [(0, 8)]
        (dateIndex2023.zip (List.replicate 35040 ((1 : ℚ) * (7 / 35040))))).1
    ∧ (calculate_cost_savings [(0, 8)]
        (dateIndex2023.zip (List.replicate 35040 ((1 : ℚ) * (7 / 35040))))).2 ≤
      (calculate_cost_savings [(0, 8)]
        (dateIndex2023.zip (List.replicate 35040 ((1 : ℚ) * (0 / 35040))))).2 :=
  C6_demand_monotonicity [(0, 8)] slpFile35040 0 7 _ _ (by norm_num)
    (by
      intro r hr v hv
      have hgr : r = goodSLPRow := List.eq_of_mem_replicate hr
      subst hgr
      have h1 : some (1 : ℚ) = some v := hv
      injection h1 with h1
      rw [← h1]
      norm_num)
    (by rw [st_total_slpFile]; norm_num)
    (estimate_slpFile 0) (estimate_slpFile 7)

end Helios
